import Mathlib

/-!
# Verification of the Playlist-Master track-resolution pipeline

Shallow embedding of src/playlist_master/downloader.py.

The Python code is dynamically typed: raw API payloads are nested dicts and
lists, and most field accesses can raise (KeyError, TypeError, IndexError,
AttributeError).  We embed Python values as the inductive type PyVal and
every fallible Python operation as a function into Except PyErr.  The
adapter functions wrap their bodies in a broad try/except returning None,
embedded as Except.toOption.

External collaborators (the ytmusicapi search, yt-dlp download, music_tag
file loading, urlopen) are passed in as explicit function parameters; their
observable behaviour (return value or raised exception) is all the embedded
code depends on.
-/

set_option maxRecDepth 4000

namespace PlaylistMaster

/-- The Python exception classes the embedded code can raise.  External
collaborators may raise as well; their exceptions are embedded as
externalError. -/
inductive PyErr where
  | keyError
  | typeError
  | indexError
  | attributeError
  | externalError
  deriving DecidableEq, Repr

/-- A Python value: None, bool, int, str, list, or (string-keyed) dict.
The payloads the repository handles (Spotify Web API and Youtube Data API
responses) are JSON-shaped, so string-keyed dicts suffice. -/
inductive PyVal where
  | pyNone
  | pyBool (b : Bool)
  | pyInt (n : Int)
  | pyStr (s : String)
  | pyList (xs : List PyVal)
  | pyDict (xs : List (String × PyVal))
  deriving Repr

mutual

/-- Python structural equality on the embedded values.  Faithful to Python
for the comparisons the source performs (strings with strings in
album_type checks and videoId checks); the Python quirks bool == int and
order-insensitive dict equality are not modelled because no code path in
the repository compares such values. -/
def pyEqb : PyVal → PyVal → Bool
  | .pyNone, .pyNone => true
  | .pyBool a, .pyBool b => a == b
  | .pyInt a, .pyInt b => a == b
  | .pyStr a, .pyStr b => a == b
  | .pyList a, .pyList b => pyListEqb a b
  | .pyDict a, .pyDict b => pyDictEqb a b
  | _, _ => false

def pyListEqb : List PyVal → List PyVal → Bool
  | [], [] => true
  | x :: xs, y :: ys => pyEqb x y && pyListEqb xs ys
  | _, _ => false

def pyDictEqb : List (String × PyVal) → List (String × PyVal) → Bool
  | [], [] => true
  | (k, v) :: xs, (l, w) :: ys => k == l && pyEqb v w && pyDictEqb xs ys
  | _, _ => false

end

/-- Python truthiness: None, False, 0, "", [] and \x7b\x7d are falsy. -/
def pyTruthy : PyVal → Bool
  | .pyNone => false
  | .pyBool b => b
  | .pyInt n => n != 0
  | .pyStr s => !(s == "")
  | .pyList xs => !xs.isEmpty
  | .pyDict xs => !xs.isEmpty

/-- Python str() of a value, as used by the f-strings in the source.  The
scalar cases are exact; container repr is abbreviated since the pipeline
only ever interpolates titles, artist names and video ids, which are
strings in well-formed payloads. -/
def pyToString : PyVal → String
  | .pyNone => "None"
  | .pyBool b => if b then "True" else "False"
  | .pyInt n => toString n
  | .pyStr s => s
  | .pyList _ => "[...]"
  | .pyDict _ => "\x7b...\x7d"

/-- Python len(): defined for lists, dicts and strings, TypeError otherwise. -/
def pyLen : PyVal → Except PyErr Int
  | .pyList xs => .ok (xs.length : Int)
  | .pyDict xs => .ok (xs.length : Int)
  | .pyStr s => .ok (s.length : Int)
  | _ => .error .typeError

/-- Python subscript v[k] with a string key: dict lookup (KeyError when the
key is missing); on a list or any other value a TypeError (list indices
must be integers; other values are not subscriptable). -/
def dictGet (v : PyVal) (k : String) : Except PyErr PyVal :=
  match v with
  | .pyDict xs =>
    match xs.lookup k with
    | some w => .ok w
    | none => .error .keyError
  | _ => .error .typeError

/-- Python subscript v[i] with an integer index: list indexing with the
negative-index convention and IndexError out of bounds; an integer key on
our string-keyed dicts misses (KeyError); TypeError otherwise. -/
def getIdx (v : PyVal) (i : Int) : Except PyErr PyVal :=
  match v with
  | .pyList xs =>
    let j := if i < 0 then i + (xs.length : Int) else i
    if h : j.toNat < xs.length ∧ 0 ≤ j then .ok (xs.get ⟨j.toNat, h.1⟩)
    else .error .indexError
  | .pyDict _ => .error .keyError
  | _ => .error .typeError

/-- The list comprehension `[x["name"] for x in v]` that all three
artist-name extractions in the source use.  Iterating a non-list payload
either raises TypeError directly or subscripts a non-dict element, which
also raises; we collapse those to TypeError (the adapter catches every
exception anyway). -/
def pyNames (v : PyVal) : Except PyErr (List PyVal) :=
  match v with
  | .pyList xs => xs.mapM (fun a => dictGet a "name")
  | _ => .error .typeError

/-- Python `list(filter(p, v))`: evaluates the predicate left to right and
keeps the elements on which it returns True; iterating a non-list raises. -/
def listFilterM (p : PyVal → Except PyErr Bool) : List PyVal → Except PyErr (List PyVal)
  | [] => .ok []
  | x :: xs => do
    let b ← p x
    let ys ← listFilterM p xs
    pure (if b then x :: ys else ys)

/-- `list(filter(p, v))` on a PyVal. -/
def pyFilter (p : PyVal → Except PyErr Bool) (v : PyVal) : Except PyErr PyVal :=
  match v with
  | .pyList xs => do
    let ys ← listFilterM p xs
    pure (.pyList ys)
  | _ => .error .typeError

/-- `"; ".join(v)`: requires a list whose elements are all strings,
TypeError otherwise (as in Python). -/
def pyJoinSemicolon (v : PyVal) : Except PyErr String :=
  match v with
  | .pyList xs => do
    let strs ← xs.mapM (fun x => match x with
      | .pyStr s => Except.ok s
      | _ => Except.error PyErr.typeError)
    pure (String.intercalate "; " strs)
  | _ => .error .typeError

/-- Python str.split(sep) for a one-character separator, over the
character list: "2020-03-15" splits to ["2020", "03", "15"], "" splits to
[""], and the result list is never empty. -/
def pySplitChar (c : Char) : List Char → List (List Char)
  | [] => [[]]
  | x :: xs =>
    let r := pySplitChar c xs
    if x == c then [] :: r
    else
      match r with
      | [] => [[x]]
      | y :: ys => (x :: y) :: ys

/-- format_date (downloader.py lines 187-193):
returns None if the date is None, else `date.split('-')[0]`, the text
before the first "-".  Python split always yields a non-empty list, so
the [0] never raises; calling .split on a non-string raises
AttributeError. -/
def format_date (date : PyVal) : Except PyErr PyVal :=
  match date with
  | .pyNone => .ok .pyNone
  | .pyStr s => .ok (.pyStr (String.mk ((pySplitChar '-' s.data).headD [])))
  | _ => .error .attributeError

/-- The Track class (downloader.py lines 91-119): a plain record of the ten
constructor arguments.  The constructor performs no validation, so each
field holds whatever Python value was passed. -/
structure Track where
  artists : PyVal
  album_artists : PyVal
  title : PyVal
  album_title : PyVal
  release_date : PyVal
  art_url : PyVal
  track_number : PyVal
  total_tracks : PyVal
  disc_number : PyVal
  explicit : PyVal
  deriving Repr

/-- The constructor argument
`["Various Artists"] if album["album_type"] == "compilation" else
[artist["name"] for artist in album["artists"]]` (line 133).  The album
type was already read; Python re-evaluates `album["album_type"]` here and
at line 135, but the dict is unchanged between the reads, so passing the
value once is equivalent. -/
def spAlbumArtists (albumType album : PyVal) : Except PyErr (List PyVal) :=
  if pyEqb albumType (.pyStr "compilation") then
    pure [PyVal.pyStr "Various Artists"]
  else
    dictGet album "artists" >>= pyNames

/-- The constructor argument
`None if album["album_type"] == "single" else album["name"]` (line 135). -/
def spAlbumTitle (albumType album : PyVal) : Except PyErr PyVal :=
  if pyEqb albumType (.pyStr "single") then
    pure PyVal.pyNone
  else
    dictGet album "name"

/-- The constructor argument
`album["images"][0]["url"] if album["images"] else None` (line 137). -/
def spArtUrl (album : PyVal) : Except PyErr PyVal :=
  dictGet album "images" >>= fun images =>
    if pyTruthy images then
      getIdx images 0 >>= fun img => dictGet img "url"
    else
      pure PyVal.pyNone

/-- Body of get_spotify_track_info (downloader.py lines 129-142), the code
inside the try block.  Each Python subscript or comprehension is a bind in
Except; any raise aborts the body with that exception.  The constructor
arguments are evaluated in source order. -/
def get_spotify_track_info_body (track : PyVal) : Except PyErr Track := do
  let album ← dictGet track "album"
  let artists ← pyNames (← dictGet track "artists")
  let albumType ← dictGet album "album_type"
  let album_artists ← spAlbumArtists albumType album
  let title ← dictGet track "name"
  let album_title ← spAlbumTitle albumType album
  let release_date ← format_date (← dictGet album "release_date")
  let art_url ← spArtUrl album
  let track_number ← dictGet track "track_number"
  let total_tracks ← dictGet album "total_tracks"
  let disc_number ← dictGet track "disc_number"
  let explicit ← dictGet track "explicit"
  pure {
    artists := .pyList artists
    album_artists := .pyList album_artists
    title := title
    album_title := album_title
    release_date := release_date
    art_url := art_url
    track_number := track_number
    total_tracks := total_tracks
    disc_number := disc_number
    explicit := explicit }

/-- get_spotify_track_info (downloader.py lines 121-147): the body wrapped
in `try ... except Exception: return None`.  The except arm only logs, so
every exception becomes None. -/
def get_spotify_track_info (track : PyVal) : Option Track :=
  (get_spotify_track_info_body track).toOption

/-- The thumbnail selection expression
`track["thumbnails"][min(tl - 1, thumbnail_quality)]["url"]`
(downloader.py line 175), with `tl = len(track["thumbnails"])` computed at
line 160. -/
def selectThumbnailUrl (thumbs : PyVal) (tl thumbnail_quality : Int) : Except PyErr PyVal := do
  let t ← getIdx thumbs (min (tl - 1) thumbnail_quality)
  dictGet t "url"

/-- The expression `None if not album else
list(filter(lambda t: t["videoId"] == track["videoId"], album["tracks"]))`
(line 164).  The filter predicate re-reads `track["videoId"]` on every
element, so an empty album track list raises nothing even when the track
has no videoId key. -/
def ytTrackMiscInfo (track album : PyVal) : Except PyErr PyVal :=
  if !pyTruthy album then
    pure PyVal.pyNone
  else
    dictGet album "tracks" >>= pyFilter (fun t => do
      let tv ← dictGet t "videoId"
      let trv ← dictGet track "videoId"
      pure (pyEqb tv trv))

/-- The statement `if track_misc_info and len(track_misc_info) == 0:
track_misc_info = None` (lines 165-166): an unreachable reassignment,
since a truthy list never has length 0. -/
def ytTmiNormalize (tmi : PyVal) : Except PyErr PyVal :=
  if pyTruthy tmi then
    pyLen tmi >>= fun l => pure (if l == 0 then PyVal.pyNone else tmi)
  else
    pure tmi

/-- The constructor argument `[track["artists"][0]["name"]] if not album
else [artist["name"] for artist in album["artists"]]` (line 171). -/
def ytAlbumArtists (track album : PyVal) : Except PyErr (List PyVal) :=
  if !pyTruthy album then
    dictGet track "artists" >>= fun as =>
      getIdx as 0 >>= fun a0 =>
        dictGet a0 "name" >>= fun n => pure [n]
  else
    dictGet album "artists" >>= pyNames

/-- The constructor argument `"Singles" if not album else album["title"]`
(line 173). -/
def ytAlbumTitle (album : PyVal) : Except PyErr PyVal :=
  if !pyTruthy album then pure (PyVal.pyStr "Singles")
  else dictGet album "title"

/-- The constructor argument `None if not album else album["year"]`
(line 174). -/
def ytReleaseDate (album : PyVal) : Except PyErr PyVal :=
  if !pyTruthy album then pure PyVal.pyNone
  else dictGet album "year"

/-- The constructor argument
`None if not track_misc_info else track_misc_info["trackNumber"]`
(line 176): when the filter result is a non-empty (truthy) list, the
string subscript hits a list and raises TypeError. -/
def ytTrackNumber (tmi : PyVal) : Except PyErr PyVal :=
  if !pyTruthy tmi then pure PyVal.pyNone
  else dictGet tmi "trackNumber"

/-- The constructor argument `None if not album else album["trackCount"]`
(line 177). -/
def ytTotalTracks (album : PyVal) : Except PyErr PyVal :=
  if !pyTruthy album then pure PyVal.pyNone
  else dictGet album "trackCount"

/-- Body of get_youtube_track_info (downloader.py lines 159-180), the code
inside the try block. -/
def get_youtube_track_info_body (track : PyVal) (thumbnail_quality : Int) (album : PyVal) :
    Except PyErr Track := do
  let thumbs ← dictGet track "thumbnails"
  let tl ← pyLen thumbs
  let track_misc_info ← ytTrackMiscInfo track album
  let track_misc_info ← ytTmiNormalize track_misc_info
  let artists ← pyNames (← dictGet track "artists")
  let album_artists ← ytAlbumArtists track album
  let title ← dictGet track "title"
  let album_title ← ytAlbumTitle album
  let release_date ← ytReleaseDate album
  let art_url ← selectThumbnailUrl thumbs tl thumbnail_quality
  let track_number ← ytTrackNumber track_misc_info
  let total_tracks ← ytTotalTracks album
  let explicit ← dictGet track "isExplicit"
  pure {
    artists := .pyList artists
    album_artists := .pyList album_artists
    title := title
    album_title := album_title
    release_date := release_date
    art_url := art_url
    track_number := track_number
    total_tracks := total_tracks
    disc_number := .pyNone
    explicit := explicit }

/-- get_youtube_track_info (downloader.py lines 149-185): the body wrapped
in `try ... except Exception: return None`. -/
def get_youtube_track_info (track : PyVal) (thumbnail_quality : Int) (album : PyVal) :
    Option Track :=
  (get_youtube_track_info_body track thumbnail_quality album).toOption

/-- The query string built by search_yt (downloader.py line 439):
`f"{artist} {track_name} explicit" if explicit else f"{artist} {track_name}"`.
The f-string applies str() to the interpolated values. -/
def search_query (artist track_name explicit : PyVal) : String :=
  if pyTruthy explicit then
    pyToString artist ++ " " ++ pyToString track_name ++ " explicit"
  else
    pyToString artist ++ " " ++ pyToString track_name

/-- The guard expression `song.count == 0` at downloader.py line 441:
`song` is the list returned by the search, so `song.count` is the *bound
method* list.count, not a length.  In Python a bound method compared with
an int via == is never equal, so this expression always evaluates False. -/
def songCountEqZero (_song : List PyVal) : Bool := false

/-- search_yt (downloader.py lines 429-444).  The search collaborator
(`credentials.search(query, filter="songs", limit=1)`) is passed in as a
function from the query string to its result list (or a raised exception).
Because songCountEqZero is constantly False, an empty result list reaches
`song[0]` and raises IndexError instead of returning None. -/
def search_yt (artist track_name : PyVal)
    (searcher : String → Except PyErr (List PyVal)) (explicit : PyVal) :
    Except PyErr PyVal := do
  let search := search_query artist track_name explicit
  let song ← searcher search
  if songCountEqZero song then
    pure PyVal.pyNone
  else do
    let first ← getIdx (.pyList song) 0
    let vid ← dictGet first "videoId"
    pure (.pyStr ("https://music.youtube.com/watch?v=" ++ pyToString vid))

/-- apply_metadata (downloader.py lines 460-488).  The music_tag file
handle is modelled by the list of tag assignments performed; the external
setter and file.save() are modelled as accepting whatever value the code
assigns (they are collaborators outside the repository).  urlopen, a
Python stdlib call performed by this function itself, deterministically
raises when handed a non-string url (in particular None); on a string url
the fetch is modelled as succeeding, and the artwork write records the
url the bytes came from.  The metadata argument is Option Track because
the Platform-B pipeline can pass None (attribute access on None raises
AttributeError, caught by the function's own except arm).  Returns the
success flag and the assignments performed before any exception. -/
def apply_metadata (metadata : Option Track) : Bool × List (String × PyVal) :=
  match metadata with
  | none => (false, [])
  | some m =>
    let w1 := [("tracktitle", m.title)]
    match pyJoinSemicolon m.artists with
    | .error _ => (false, w1)
    | .ok artistsJoined =>
      let w2 := w1 ++ [("artist", PyVal.pyStr artistsJoined)]
      match pyJoinSemicolon m.album_artists with
      | .error _ => (false, w2)
      | .ok albumArtistsJoined =>
        let w3 := w2 ++ [("albumartist", PyVal.pyStr albumArtistsJoined)]
        let w4 := w3 ++ (if pyTruthy m.album_title then [("album", m.album_title)] else [])
        let w5 := w4 ++ [("year", m.release_date)]
        match m.art_url with
        | .pyStr u =>
          let w6 := w5 ++ [("artwork", PyVal.pyStr u)]
          let w7 := w6 ++ (if pyTruthy m.disc_number then [("discnumber", m.disc_number)] else [])
          let w8 := w7 ++ (if pyTruthy m.track_number then [("tracknumber", m.track_number)] else [])
          let w9 := w8 ++ (if pyTruthy m.total_tracks then [("totaltracks", m.total_tracks)] else [])
          (true, w9)
        | _ => (false, w5)

/-- Index of the last occurrence of a character in a list of characters,
or none when it does not occur: the combination of the membership test
`c in out` and `out.rindex(c)` used at downloader.py lines 320-323. -/
def rindexChar (c : Char) : List Char → Option Nat
  | [] => none
  | x :: xs =>
    match rindexChar c xs with
    | some j => some (j + 1)
    | none => if x == c then some 0 else none

/-- The insertion index of the output-template surgery (downloader.py
lines 319-323): one past the last "/" if any, else one past the last
backslash if any, else 0. -/
def insertIndex (cs : List Char) : Nat :=
  match rindexChar '/' cs with
  | some j => j + 1
  | none =>
    match rindexChar '\\' cs with
    | some j => j + 1
    | none => 0

/-- The output-template surgery at downloader.py lines 318-325 (and its
copy at lines 369-376): splice the artist/album segment in at the
insertion index: `out[:i] + f"{artist}/{album}/" + out[i:]`.  Python
slices strings by code point, matching List Char indexing. -/
def insert_artist_album (out artist album : String) : String :=
  let i : Nat := insertIndex out.data
  String.mk (out.data.take i) ++ artist ++ "/" ++ album ++ "/" ++ String.mk (out.data.drop i)

/-- The effective album value in the sort segment f-string
`track.album_title if track.album_title else "Singles"`
(downloader.py lines 325 and 376). -/
def effectiveAlbum (t : Track) : PyVal :=
  if pyTruthy t.album_title then t.album_title else .pyStr "Singles"

/-- The mutable state the playlist loops thread between iterations:
`ytdlp_options["outtmpl"]["default"]` (none models a falsy/absent outtmpl
entry, some s a present template) and the `outputs` list of downloaded
file paths. -/
structure PipeState where
  outtmpl : Option String
  outputs : List PyVal
  deriving Repr

/-- One iteration of the for-loop of download_spotify_playlist
(downloader.py lines 298-341).

* searcher: the ytmusicapi search collaborator used by search_yt.
* downloader: the yt-dlp download collaborator; it receives the url and
  the current outtmpl and returns the path its post-hook appends to
  outputs (or raises).
* loadFile: music_tag.load_file, which can raise.

The try/except at lines 304-314 covers only the logging line and the
search_yt call (including the `track.artists[0]` subscripts on those
lines); exceptions there are logged and the track skipped.  Exceptions
from the download or from music_tag.load_file are not caught anywhere in
the function and abort the whole loop.  apply_metadata catches its own
exceptions and only determines a log line, so its result is discarded. -/
def processSpotifyTrack (sort : Bool)
    (searcher : String → Except PyErr (List PyVal))
    (downloader : PyVal → Option String → Except PyErr PyVal)
    (loadFile : PyVal → Except PyErr Unit)
    (st : PipeState) (track? : Option Track) : Except PyErr PipeState :=
  match track? with
  | none => .ok st                      -- `if not track: ... continue`
  | some track =>
    -- try-block: line 305 evaluates track.artists[0] for the log message,
    -- line 306 calls search_yt(track.title, track.artists[0], ytauth,
    -- track.explicit) — note the title is passed as the artist argument.
    match getIdx track.artists 0 with
    | .error _ => .ok st                -- raised inside try: logged, continue
    | .ok a0 =>
      match search_yt track.title a0 searcher track.explicit with
      | .error _ => .ok st              -- raised inside try: logged, continue
      | .ok url =>
        if pyEqb url .pyNone then .ok st    -- `if url is None: ... continue`
        else
          -- lines 317-326: sort block, writes the new template back into
          -- the shared ytdlp_options
          let st1 :=
            match st.outtmpl with
            | some out =>
              if sort then
                { st with outtmpl := some (insert_artist_album out
                    (pyToString a0) (pyToString (effectiveAlbum track))) }
              else st
            | none => st
          match downloader url st1.outtmpl with
          | .error e => .error e        -- uncaught: aborts the playlist run
          | .ok path =>
            let st2 := { st1 with outputs := st1.outputs ++ [path] }
            if !pyTruthy path then .ok st2   -- `if not outputs[-1]: ... continue`
            else
              match loadFile path with
              | .error e => .error e    -- uncaught: aborts the playlist run
              | .ok _ =>
                let _r := apply_metadata (some track)
                .ok st2                 -- either branch only logs

/-- The for-loop of download_spotify_playlist over the adapted tracks. -/
def spotifyTrackLoop (sort : Bool)
    (searcher : String → Except PyErr (List PyVal))
    (downloader : PyVal → Option String → Except PyErr PyVal)
    (loadFile : PyVal → Except PyErr Unit)
    (tracks : List (Option Track)) (st : PipeState) : Except PyErr PipeState :=
  tracks.foldlM (processSpotifyTrack sort searcher downloader loadFile) st

/-- Line 297: `tracks = list(map(lambda track:
get_spotify_track_info(track["track"]), get_spotify_tracks(...)))`.
The subscript `track["track"]` happens inside the map lambda but outside
the adapter's try, so a playlist item without a "track" key raises before
the loop starts. -/
def adaptSpotifyItems (items : List PyVal) : Except PyErr (List (Option Track)) :=
  items.mapM (fun item => do
    let t ← dictGet item "track"
    pure (get_spotify_track_info t))

/-- download_spotify_playlist (downloader.py lines 280-341), from the
point where the playlist items have been fetched: adapt every item, then
run the per-track loop. -/
def download_spotify_playlist (sort : Bool)
    (searcher : String → Except PyErr (List PyVal))
    (downloader : PyVal → Option String → Except PyErr PyVal)
    (loadFile : PyVal → Except PyErr Unit)
    (items : List PyVal) (st : PipeState) : Except PyErr PipeState := do
  let tracks ← adaptSpotifyItems items
  spotifyTrackLoop sort searcher downloader loadFile tracks st

/-- One iteration of the for-loop of download_youtube_playlist
(downloader.py lines 361-390).  getAlbum is the `ytauth.get_album`
collaborator.  This loop contains no try/except at all: any exception in
an iteration aborts the run.  In particular, when sorting is enabled and
the adapter returned None, `track_info.artists[0]` at line 376 raises
AttributeError. -/
def processYoutubeTrack (sort : Bool) (thumbnail_quality : Int)
    (getAlbum : PyVal → PyVal)
    (downloader : PyVal → Option String → Except PyErr PyVal)
    (loadFile : PyVal → Except PyErr Unit)
    (st : PipeState) (track : PyVal) : Except PyErr PipeState := do
  -- line 363: `ytauth.get_album(track["album"]["id"]) if track["album"] else None`
  let albumField ← dictGet track "album"
  let albumArg ←
    if pyTruthy albumField then do
      let aid ← dictGet albumField "id"
      pure (getAlbum aid)
    else
      pure PyVal.pyNone
  let track_info := get_youtube_track_info track thumbnail_quality albumArg
  -- line 364: url built from the raw item, not from the adapted record
  let vid ← dictGet track "videoId"
  let url := PyVal.pyStr ("https://music.youtube.com/watch?v=" ++ pyToString vid)
  let st1 ←
    match st.outtmpl with
    | some out =>
      if sort then do
        -- line 376: `track_info.artists[0]` — AttributeError when the
        -- adapter returned None, IndexError when artists is empty
        match track_info with
        | none => throw PyErr.attributeError
        | some ti => do
          let a0 ← getIdx ti.artists 0
          pure { st with outtmpl := some (insert_artist_album out
              (pyToString a0) (pyToString (effectiveAlbum ti))) }
      else
        pure st
    | none => pure st
  let path ← downloader url st1.outtmpl
  let st2 := { st1 with outputs := st1.outputs ++ [path] }
  if !pyTruthy path then
    pure st2                            -- `if not outputs[-1]: ... continue`
  else do
    let _ ← loadFile path
    let _r := apply_metadata track_info
    pure st2

/-- download_youtube_playlist (downloader.py lines 344-390), from the
point where the raw playlist tracks have been fetched. -/
def download_youtube_playlist (sort : Bool) (thumbnail_quality : Int)
    (getAlbum : PyVal → PyVal)
    (downloader : PyVal → Option String → Except PyErr PyVal)
    (loadFile : PyVal → Except PyErr Unit)
    (tracks : List PyVal) (st : PipeState) : Except PyErr PipeState :=
  tracks.foldlM (processYoutubeTrack sort thumbnail_quality getAlbum downloader loadFile) st

/-! ## Helper lemmas -/

theorem exceptBind_ok_iff {α β : Type} (x : Except PyErr α) (f : α → Except PyErr β) (b : β) :
    (x >>= f) = .ok b ↔ ∃ a, x = .ok a ∧ f a = .ok b := by
  cases x <;> simp [Bind.bind, Except.bind]

theorem exceptToOption_ok {α : Type} (x : Except PyErr α) (a : α) (h : x = .ok a) :
    x.toOption = some a := by
  subst h; rfl

theorem mapM_ok_length (f : PyVal → Except PyErr PyVal) :
    ∀ (xs ys : List PyVal), xs.mapM f = .ok ys → ys.length = xs.length := by
  intro xs
  induction xs with
  | nil =>
    intro ys h
    rw [List.mapM_nil] at h
    simp only [pure, Except.pure, Except.ok.injEq] at h
    subst h
    rfl
  | cons x xs ih =>
    intro ys h
    rw [List.mapM_cons] at h
    rw [exceptBind_ok_iff] at h
    obtain ⟨a, _, h⟩ := h
    rw [exceptBind_ok_iff] at h
    obtain ⟨as, has, h⟩ := h
    simp [pure, Except.pure] at h
    subst h
    simp [ih as has]

theorem toOption_eq_some {α : Type} (x : Except PyErr α) (a : α) :
    x.toOption = some a ↔ x = .ok a := by
  cases x <;> simp [Except.toOption]

theorem pure_ok_iff {α : Type} (a b : α) : (pure a : Except PyErr α) = .ok b ↔ a = b := by
  constructor
  · intro h; injection h
  · intro h; rw [h]; rfl

/-! ## Concrete sample payloads and collaborators used by the claim theorems -/

/-- A search collaborator that finds nothing, for every query. -/
def emptySearch : String → Except PyErr (List PyVal) := fun _ => .ok []

/-- A search collaborator that returns one song with videoId "vid123". -/
def oneSongSearch : String → Except PyErr (List PyVal) :=
  fun _ => .ok [.pyDict [("videoId", .pyStr "vid123")]]

/-- A search collaborator whose request itself raises. -/
def raisingSearch : String → Except PyErr (List PyVal) := fun _ => .error .externalError

/-- A download collaborator that succeeds and reports the output template it
was handed as the downloaded file path (letting theorems observe which
template each download used). -/
def echoDownload : PyVal → Option String → Except PyErr PyVal :=
  fun _ tmpl => .ok (.pyStr (tmpl.getD ""))

/-- A download collaborator that raises. -/
def raisingDownload : PyVal → Option String → Except PyErr PyVal :=
  fun _ _ => .error .externalError

/-- A music_tag.load_file collaborator that succeeds. -/
def okLoadFile : PyVal → Except PyErr Unit := fun _ => .ok ()

/-! ## C1: search_yt on zero results -/

/-- Claim C1 (code bug): the claim says a search with zero results makes
search_yt return None rather than raise.  In the code the guard
`song.count == 0` (line 441) compares the bound method list.count with 0
and is always False, so zero results fall through to `song[0]`, which
raises IndexError.  The second conjunct checks the non-empty half of the
claim: with at least one result the playable url of the first result is
returned. -/
theorem claim1_search_yt_raises_on_empty_results :
    search_yt (.pyStr "Artist") (.pyStr "Song") emptySearch (.pyBool false)
      = .error .indexError
  ∧ search_yt (.pyStr "Artist") (.pyStr "Song") oneSongSearch (.pyBool false)
      = .ok (.pyStr "https://music.youtube.com/watch?v=vid123") :=
  ⟨rfl, rfl⟩

/-! ## C2: the pipeline passes the title as the artist argument -/

/-- The track "Song" by "Artist", as the Platform-A adapter would produce
it, used to exercise the matcher call of the Platform-A pipeline. -/
def c2track : Track :=
  { artists := .pyList [.pyStr "Artist"]
    album_artists := .pyList [.pyStr "Artist"]
    title := .pyStr "Song"
    album_title := .pyNone
    release_date := .pyNone
    art_url := .pyStr "u"
    track_number := .pyNone
    total_tracks := .pyNone
    disc_number := .pyNone
    explicit := .pyBool false }

/-- A search collaborator that only finds a song for the query
"Artist Song" (the query the claim says the pipeline issues). -/
def artistFirstSearch : String → Except PyErr (List PyVal) :=
  fun q => if q == "Artist Song" then .ok [.pyDict [("videoId", .pyStr "vid123")]] else .ok []

/-- A search collaborator that only finds a song for the query
"Song Artist" (the query the pipeline actually issues). -/
def titleFirstSearch : String → Except PyErr (List PyVal) :=
  fun q => if q == "Song Artist" then .ok [.pyDict [("videoId", .pyStr "vid123")]] else .ok []

/-- Claim C2 (code bug): the claim says the query exercised by the
pipeline is "\x7bartist\x7d \x7btitle\x7d".  Line 306 calls
search_yt(track.title, track.artists[0], ...), binding the title to the
artist parameter, so the issued query is "Song Artist", not "Artist Song":
(1) the query built from the arguments the pipeline passes is
"Song Artist"; (2) running the pipeline against a search index that only
answers "Artist Song" downloads nothing (the empty result then raises
IndexError inside the try, and the track is skipped); (3) against an index
that only answers "Song Artist" the download happens. -/
theorem claim2_pipeline_query_swaps_artist_and_title :
    search_query c2track.title (.pyStr "Artist") c2track.explicit = "Song Artist"
  ∧ spotifyTrackLoop false artistFirstSearch echoDownload okLoadFile [some c2track]
      ⟨some "x", []⟩ = .ok ⟨some "x", []⟩
  ∧ spotifyTrackLoop false titleFirstSearch echoDownload okLoadFile [some c2track]
      ⟨some "x", []⟩ = .ok ⟨some "x", [.pyStr "x"]⟩ :=
  ⟨rfl, rfl, rfl⟩

/-! ## C3: album track entry with a matching videoId -/

/-- A raw Youtube track with videoId "v1". -/
def c3track : PyVal := .pyDict [
  ("thumbnails", .pyList [.pyDict [("url", .pyStr "u0")]]),
  ("videoId", .pyStr "v1"),
  ("artists", .pyList [.pyDict [("name", .pyStr "YArtist")]]),
  ("title", .pyStr "YSong"),
  ("isExplicit", .pyBool true)]

/-- An album whose track list has exactly one entry with videoId "v1",
carrying trackNumber 5. -/
def c3albumOneMatch : PyVal := .pyDict [
  ("tracks", .pyList [.pyDict [("videoId", .pyStr "v1"), ("trackNumber", .pyInt 5)]]),
  ("artists", .pyList [.pyDict [("name", .pyStr "YAlbArtist")]]),
  ("title", .pyStr "YAlbum"),
  ("year", .pyStr "2019"),
  ("trackCount", .pyInt 9)]

/-- The same album with no entry matching videoId "v1". -/
def c3albumNoMatch : PyVal := .pyDict [
  ("tracks", .pyList [.pyDict [("videoId", .pyStr "OTHER"), ("trackNumber", .pyInt 5)]]),
  ("artists", .pyList [.pyDict [("name", .pyStr "YAlbArtist")]]),
  ("title", .pyStr "YAlbum"),
  ("year", .pyStr "2019"),
  ("trackCount", .pyInt 9)]

/-- Claim C3 (code bug): the claim says that with exactly one matching
album entry the record carries that entry's track number.  Line 176
subscripts the filtered *list* with the string "trackNumber"
(`track_misc_info["trackNumber"]` instead of
`track_misc_info[0]["trackNumber"]`), which raises TypeError, so the whole
record construction fails and the adapter returns None whenever a match
exists: (1) the body raises TypeError on the one-match input; (2) the
adapter hence returns None for it; (3) the zero-match half behaves as the
claim says: a record is returned and its track_number is absent. -/
theorem claim3_matching_entry_fails_whole_record :
    get_youtube_track_info_body c3track 0 c3albumOneMatch = .error .typeError
  ∧ get_youtube_track_info c3track 0 c3albumOneMatch = none
  ∧ ∃ t, get_youtube_track_info c3track 0 c3albumNoMatch = some t
      ∧ t.track_number = .pyNone :=
  ⟨rfl, rfl, ⟨_, rfl, rfl⟩⟩

/-! ## C4: per-track failure handling -/

/-- A well-formed adapted track used to drive the pipeline into its
download step. -/
def c4track : Track :=
  { artists := .pyList [.pyStr "C4Artist"]
    album_artists := .pyList [.pyStr "C4Artist"]
    title := .pyStr "C4Song"
    album_title := .pyStr "C4Album"
    release_date := .pyStr "2021"
    art_url := .pyStr "u"
    track_number := .pyInt 1
    total_tracks := .pyInt 2
    disc_number := .pyInt 1
    explicit := .pyBool false }

/-- A second distinct adapted track. -/
def c4track2 : Track :=
  { c4track with
    title := .pyStr "C4Song2" }

/-- Counterexample to claim C4 as stated: in a two-track Platform-A run
whose download collaborator throws, the exception is not caught anywhere
in download_spotify_playlist (the try/except at lines 304-314 covers only
the search step), so the run aborts at the first track's download step —
a per-track step failure does abort the playlist run. -/
theorem claim4_counterexample :
    spotifyTrackLoop false oneSongSearch raisingDownload okLoadFile
      [some c4track, some c4track2] ⟨some "x", []⟩ = .error .externalError :=
  rfl

/-- A per-track step with a raising search collaborator never changes the
state and never aborts: the exception is raised inside the try block of
lines 304-314, logged, and the track is skipped. -/
theorem processSpotifyTrack_raisingSearch (sort : Bool)
    (d : PyVal → Option String → Except PyErr PyVal)
    (l : PyVal → Except PyErr Unit) (st : PipeState) (t? : Option Track) :
    processSpotifyTrack sort raisingSearch d l st t? = .ok st := by
  cases t? with
  | none => rfl
  | some tr =>
    cases h : getIdx tr.artists 0 with
    | error e => simp [processSpotifyTrack, h]
    | ok a0 =>
      simp [processSpotifyTrack, h, search_yt, raisingSearch, Bind.bind, Except.bind]

/-- A raw Platform-B playlist item that the Platform-B adapter fails on
(no thumbnails key), while the raw item itself still has the fields the
loop reads directly. -/
def c4ytBadTrack : PyVal := .pyDict [("album", .pyNone), ("videoId", .pyStr "v")]

/-- An album-lookup collaborator (never consulted for c4ytBadTrack, whose
album field is falsy). -/
def noAlbumLookup : PyVal → PyVal := fun _ => .pyNone

/-- Claim C4 amended: in the Platform-A pipeline an exception during the
matching step is caught, logged and the track skipped (first conjunct, for
every track list, state, sort flag and download/load collaborators), and a
failed adaptation likewise skips (second conjunct); but an exception from
the download trigger aborts the playlist run (third conjunct), and in the
Platform-B pipeline, which has no per-track exception handling at all, an
adaptation failure itself aborts the run when sorting is enabled, because
line 376 reads `track_info.artists[0]` from the None the adapter returned
(fourth conjunct). -/
theorem claim4_amended :
    (∀ (tracks : List (Option Track)) (sort : Bool)
        (d : PyVal → Option String → Except PyErr PyVal)
        (l : PyVal → Except PyErr Unit) (st : PipeState),
      spotifyTrackLoop sort raisingSearch d l tracks st = .ok st)
  ∧ (∀ (sort : Bool)
        (s : String → Except PyErr (List PyVal))
        (d : PyVal → Option String → Except PyErr PyVal)
        (l : PyVal → Except PyErr Unit) (st : PipeState),
      processSpotifyTrack sort s d l st none = .ok st)
  ∧ spotifyTrackLoop false oneSongSearch raisingDownload okLoadFile
      [some c4track] ⟨some "x", []⟩ = .error .externalError
  ∧ download_youtube_playlist true 0 noAlbumLookup echoDownload okLoadFile
      [c4ytBadTrack] ⟨some "x", []⟩ = .error .attributeError := by
  refine ⟨?_, ?_, rfl, rfl⟩
  · intro tracks sort d l st
    induction tracks generalizing st with
    | nil => rfl
    | cons t ts ih =>
      unfold spotifyTrackLoop at ih ⊢
      rw [List.foldlM_cons, processSpotifyTrack_raisingSearch]
      simpa [Bind.bind, Except.bind] using ih st
  · intro sort s d l st
    rfl

/-! ## C5: apply_metadata and absent fields -/

/-- A canonical record whose optional fields are all absent except the
ones apply_metadata writes unconditionally. -/
def c5track : Track :=
  { artists := .pyList [.pyStr "A1", .pyStr "A2"]
    album_artists := .pyList [.pyStr "AA"]
    title := .pyStr "T"
    album_title := .pyNone
    release_date := .pyNone
    art_url := .pyNone
    track_number := .pyNone
    total_tracks := .pyNone
    disc_number := .pyNone
    explicit := .pyBool false }

/-- Counterexample to claim C5 as stated: for a record whose art URL is
absent the whole operation fails — line 476 calls
`urlopen(metadata.art_url)` unguarded, urlopen(None) raises, the except
arm returns False.  Moreover the year tag was written (with the absent
value None) before the failure, not skipped: release date is not guarded
either (line 475). -/
theorem claim5_counterexample :
    (apply_metadata (some c5track)).1 = false
  ∧ ("year", PyVal.pyNone) ∈ (apply_metadata (some c5track)).2 := by
  constructor
  · rfl
  · show ("year", PyVal.pyNone) ∈ [("tracktitle", PyVal.pyStr "T"),
      ("artist", PyVal.pyStr "A1; A2"), ("albumartist", PyVal.pyStr "AA"),
      ("year", PyVal.pyNone)]
    simp

/-- Claim C5 amended: for every record whose artists and album-artists
fields join into strings (as every adapter-built record does) and whose
art URL is *present*, apply_metadata succeeds; the guarded fields — album
title, disc number, track number, total tracks — are written iff their
value is truthy (so absent values are skipped, but so are falsy present
values such as 0); title, joined artists, joined album artists and the
artwork are written; and the release date is written unconditionally, even
when absent.  When the art URL is absent, the operation fails (see the
counterexample). -/
theorem claim5_amended (m : Track) (u s1 s2 : String)
    (hart : m.art_url = .pyStr u)
    (hj1 : pyJoinSemicolon m.artists = .ok s1)
    (hj2 : pyJoinSemicolon m.album_artists = .ok s2) :
    (apply_metadata (some m)).1 = true
  ∧ ("tracktitle", m.title) ∈ (apply_metadata (some m)).2
  ∧ ("artist", PyVal.pyStr s1) ∈ (apply_metadata (some m)).2
  ∧ ("albumartist", PyVal.pyStr s2) ∈ (apply_metadata (some m)).2
  ∧ (pyTruthy m.album_title = true → ("album", m.album_title) ∈ (apply_metadata (some m)).2)
  ∧ (pyTruthy m.album_title = false → ∀ v, ("album", v) ∉ (apply_metadata (some m)).2)
  ∧ ("year", m.release_date) ∈ (apply_metadata (some m)).2
  ∧ ("artwork", PyVal.pyStr u) ∈ (apply_metadata (some m)).2
  ∧ (pyTruthy m.disc_number = true → ("discnumber", m.disc_number) ∈ (apply_metadata (some m)).2)
  ∧ (pyTruthy m.disc_number = false → ∀ v, ("discnumber", v) ∉ (apply_metadata (some m)).2)
  ∧ (pyTruthy m.track_number = true → ("tracknumber", m.track_number) ∈ (apply_metadata (some m)).2)
  ∧ (pyTruthy m.track_number = false → ∀ v, ("tracknumber", v) ∉ (apply_metadata (some m)).2)
  ∧ (pyTruthy m.total_tracks = true → ("totaltracks", m.total_tracks) ∈ (apply_metadata (some m)).2)
  ∧ (pyTruthy m.total_tracks = false → ∀ v, ("totaltracks", v) ∉ (apply_metadata (some m)).2) := by
  simp only [apply_metadata]
  rw [hj1, hj2, hart]
  by_cases h1 : pyTruthy m.album_title <;>
    by_cases h2 : pyTruthy m.disc_number <;>
      by_cases h3 : pyTruthy m.track_number <;>
        by_cases h4 : pyTruthy m.total_tracks <;>
          simp [h1, h2, h3, h4]

/-- Witness for claim5_amended at a concrete record with a present art
URL, absent album title, disc and track numbers, and a present
total-tracks count. -/
def c5wtrack : Track :=
  { c5track with
    art_url := .pyStr "http://img"
    total_tracks := .pyInt 7 }

theorem claim5_amended_witness :
    (apply_metadata (some c5wtrack)).1 = true
  ∧ ("year", PyVal.pyNone) ∈ (apply_metadata (some c5wtrack)).2
  ∧ (∀ v, ("album", v) ∉ (apply_metadata (some c5wtrack)).2)
  ∧ ("totaltracks", PyVal.pyInt 7) ∈ (apply_metadata (some c5wtrack)).2 := by
  obtain ⟨hs, _, _, _, _, halb, hyear, _, _, _, _, _, htot, _⟩ :=
    claim5_amended c5wtrack "http://img" "A1; A2" "AA" rfl rfl rfl
  exact ⟨hs, by simpa using hyear, halb rfl, htot rfl⟩

/-! ## C6: non-empty artists lists -/

/-- A structurally valid Platform-A raw item whose artists list is empty. -/
def c6raw : PyVal := .pyDict [
  ("album", .pyDict [
    ("album_type", .pyStr "album"),
    ("artists", .pyList [.pyDict [("name", .pyStr "AlbArtist")]]),
    ("name", .pyStr "TheAlbum"),
    ("release_date", .pyStr "2020-03-15"),
    ("images", .pyList [.pyDict [("url", .pyStr "http://img")]]),
    ("total_tracks", .pyInt 12)]),
  ("artists", .pyList []),
  ("name", .pyStr "Song"),
  ("track_number", .pyInt 3),
  ("disc_number", .pyInt 1),
  ("explicit", .pyBool false)]

/-- Counterexample to claim C6 as stated: neither adapter checks the
artists list, so a raw item with an empty artists list (every other field
well-formed) yields a successfully constructed record whose artists list
is empty — the comprehension `[artist["name"] for artist in
track["artists"]]` maps an empty list to an empty list without raising. -/
theorem claim6_counterexample :
    ∃ t, get_spotify_track_info c6raw = some t ∧ t.artists = .pyList [] :=
  ⟨_, rfl, rfl⟩

/-- Claim C6 amended: whenever an adapter succeeds *and the raw item's
artists list is non-empty*, the record's artists list is non-empty (the
comprehension preserves the length).  The unconditional claim fails for
the degenerate empty-artists raw item of the counterexample. -/
theorem claim6_amended :
    (∀ (raw : PyVal) (t : Track) (xs : List PyVal),
      get_spotify_track_info raw = some t →
      dictGet raw "artists" = .ok (.pyList xs) → xs ≠ [] →
      ∃ ys, t.artists = .pyList ys ∧ ys ≠ [])
  ∧ (∀ (raw alb : PyVal) (q : Int) (t : Track) (xs : List PyVal),
      get_youtube_track_info raw q alb = some t →
      dictGet raw "artists" = .ok (.pyList xs) → xs ≠ [] →
      ∃ ys, t.artists = .pyList ys ∧ ys ≠ []) := by
  constructor
  · intro raw t xs hsome hart hne
    simp only [get_spotify_track_info] at hsome
    rw [toOption_eq_some] at hsome
    simp only [get_spotify_track_info_body, exceptBind_ok_iff, pure_ok_iff] at hsome
    obtain ⟨album, halbum, v, hv, ns, hns, aty, haty, aa, haa, ti, hti, at2, hat2,
      rd0, hrd0, rd, hrd, au, hau, tn, htn, tt, htt, dn, hdn, ex, hex, ht⟩ := hsome
    rw [hv] at hart
    injection hart with hart
    subst hart
    subst ht
    have hlen : ns.length = xs.length := by
      simp only [pyNames] at hns
      exact mapM_ok_length _ _ _ hns
    refine ⟨ns, rfl, ?_⟩
    intro hcon
    subst hcon
    apply hne
    apply List.length_eq_zero.mp
    simpa using hlen.symm
  · intro raw alb q t xs hsome hart hne
    simp only [get_youtube_track_info] at hsome
    rw [toOption_eq_some] at hsome
    simp only [get_youtube_track_info_body, exceptBind_ok_iff, pure_ok_iff] at hsome
    obtain ⟨th, hth, tl, htl, tmi, htmi, tmi2, htmi2, v, hv, ns, hns, aa, haa,
      ti, hti, at2, hat2, rd, hrd, au, hau, tn, htn, tt, htt, ex, hex, ht⟩ := hsome
    rw [hv] at hart
    injection hart with hart
    subst hart
    subst ht
    have hlen : ns.length = xs.length := by
      simp only [pyNames] at hns
      exact mapM_ok_length _ _ _ hns
    refine ⟨ns, rfl, ?_⟩
    intro hcon
    subst hcon
    apply hne
    apply List.length_eq_zero.mp
    simpa using hlen.symm

/-- The counterexample raw item with one artist instead of none. -/
def c6wraw : PyVal := .pyDict [
  ("album", .pyDict [
    ("album_type", .pyStr "album"),
    ("artists", .pyList [.pyDict [("name", .pyStr "AlbArtist")]]),
    ("name", .pyStr "TheAlbum"),
    ("release_date", .pyStr "2020-03-15"),
    ("images", .pyList [.pyDict [("url", .pyStr "http://img")]]),
    ("total_tracks", .pyInt 12)]),
  ("artists", .pyList [.pyDict [("name", .pyStr "Artist")]]),
  ("name", .pyStr "Song"),
  ("track_number", .pyInt 3),
  ("disc_number", .pyInt 1),
  ("explicit", .pyBool false)]

/-- The record the Platform-A adapter builds from c6wraw. -/
def c6wtrack : Track :=
  { artists := .pyList [.pyStr "Artist"]
    album_artists := .pyList [.pyStr "AlbArtist"]
    title := .pyStr "Song"
    album_title := .pyStr "TheAlbum"
    release_date := .pyStr "2020"
    art_url := .pyStr "http://img"
    track_number := .pyInt 3
    total_tracks := .pyInt 12
    disc_number := .pyInt 1
    explicit := .pyBool false }

theorem claim6_amended_witness :
    ∃ ys, c6wtrack.artists = .pyList ys ∧ ys ≠ [] :=
  claim6_amended.1 c6wraw c6wtrack [.pyDict [("name", .pyStr "Artist")]]
    (by rfl) (by rfl) (List.cons_ne_nil _ _)

/-! ## C7: adapters are total at their boundary -/

/-- Claim C7: each adapter either returns a record or returns None; every
exception the body raises (the embedded KeyError / TypeError / IndexError
/ AttributeError of missing keys, wrong types and empty-list indexing) is
absorbed by the `except Exception` arm into None, and a body that
completes yields its record — no exception escapes the adapter. -/
theorem claim7_adapters_total (raw alb : PyVal) (q : Int) (e : PyErr) (t : Track) :
    (get_spotify_track_info_body raw = .error e → get_spotify_track_info raw = none)
  ∧ (get_spotify_track_info_body raw = .ok t → get_spotify_track_info raw = some t)
  ∧ (get_youtube_track_info_body raw q alb = .error e →
      get_youtube_track_info raw q alb = none)
  ∧ (get_youtube_track_info_body raw q alb = .ok t →
      get_youtube_track_info raw q alb = some t) := by
  refine ⟨?_, ?_, ?_, ?_⟩ <;>
    intro h <;>
      simp [get_spotify_track_info, get_youtube_track_info, h, Except.toOption]

/-- Witness for claim7_adapters_total: the empty dict makes the Platform-A
body raise KeyError (no "album" key) and the Platform-B body raise
KeyError as well (no "thumbnails" key); both adapters return None on it. -/
theorem claim7_adapters_total_witness :
    get_spotify_track_info (.pyDict []) = none
  ∧ get_youtube_track_info (.pyDict []) 0 .pyNone = none := by
  have h := claim7_adapters_total (.pyDict []) .pyNone 0 .keyError
    ⟨.pyNone, .pyNone, .pyNone, .pyNone, .pyNone, .pyNone, .pyNone, .pyNone, .pyNone, .pyNone⟩
  exact ⟨h.1 (by rfl), h.2.2.1 (by rfl)⟩

/-! ## C8: thumbnail clamp -/

/-- Claim C8: for a non-empty thumbnails list of length n and a requested
quality ordinal q ≥ 0, the selection expression
`track["thumbnails"][min(tl - 1, thumbnail_quality)]["url"]` used by the
Platform-B adapter indexes position min(q, n - 1), which is always in
bounds, and reads that thumbnail's url — an out-of-range request degrades
to the last (best available) thumbnail instead of raising IndexError. -/
theorem claim8_thumbnail_clamp (xs : List PyVal) (q : Int)
    (h1 : 0 < xs.length) (h2 : 0 ≤ q) :
    ∃ (h : min q.toNat (xs.length - 1) < xs.length),
      selectThumbnailUrl (.pyList xs) (xs.length : Int) q
        = dictGet (xs.get ⟨min q.toNat (xs.length - 1), h⟩) "url" := by
  have hlt : min q.toNat (xs.length - 1) < xs.length := by omega
  refine ⟨hlt, ?_⟩
  have hneg : ¬ (min ((xs.length : Int) - 1) q < 0) := by omega
  have hcond : (min ((xs.length : Int) - 1) q).toNat < xs.length
      ∧ 0 ≤ min ((xs.length : Int) - 1) q := by omega
  have hi : (min ((xs.length : Int) - 1) q).toNat = min q.toNat (xs.length - 1) := by
    omega
  simp only [selectThumbnailUrl, getIdx, if_neg hneg, dif_pos hcond,
    Bind.bind, Except.bind]
  congr 1
  exact congrArg _ (Fin.ext hi)

/-- Witness for claim8_thumbnail_clamp: three thumbnails and requested
ordinal 10 select index 2, the url "u2". -/
theorem claim8_thumbnail_clamp_witness :
    selectThumbnailUrl
      (.pyList [.pyDict [("url", .pyStr "u0")], .pyDict [("url", .pyStr "u1")],
        .pyDict [("url", .pyStr "u2")]]) 3 10
      = .ok (.pyStr "u2") := by
  obtain ⟨h, e⟩ := claim8_thumbnail_clamp
    [.pyDict [("url", .pyStr "u0")], .pyDict [("url", .pyStr "u1")],
      .pyDict [("url", .pyStr "u2")]] 10 (by decide) (by decide)
  exact e.trans (by rfl)

/-! ## C9: output path deriver -/

theorem rindexChar_eq_none (c : Char) (l : List Char) :
    rindexChar c l = none ↔ l.contains c = false := by
  induction l with
  | nil => simp [rindexChar]
  | cons y xs ih =>
    cases h : rindexChar c xs with
    | some j =>
      have hx : xs.contains c = true := by
        cases hc : xs.contains c
        · rw [← ih] at hc
          rw [h] at hc
          cases hc
        · rfl
      simp only [rindexChar, h, List.contains_cons, hx, Bool.or_true]
      constructor
      · intro hc
        cases hc
      · intro hc
        cases hc
    | none =>
      have hx : xs.contains c = false := ih.mp h
      by_cases hyc : y = c
      · subst hyc
        simp [rindexChar, h, List.contains_cons]
      · have hcy : (c == y) = false := by
          rw [beq_eq_false_iff_ne]
          exact Ne.symm hyc
        have hyc2 : (y == c) = false := by
          rw [beq_eq_false_iff_ne]
          exact hyc
        simp only [rindexChar, h, List.contains_cons, hx, hcy, hyc2,
          Bool.or_self, Bool.or_false, if_false, Bool.false_eq_true]

theorem rindexChar_eq_some (c : Char) (l : List Char) :
    ∀ j, rindexChar c l = some j →
      ∃ p f, l = p ++ c :: f ∧ p.length = j ∧ f.contains c = false := by
  induction l with
  | nil => intro j h; cases h
  | cons y xs ih =>
    intro j h
    simp only [rindexChar] at h
    cases hx : rindexChar c xs with
    | some i =>
      rw [hx] at h
      injection h with h
      obtain ⟨p, f, hl, hp, hf⟩ := ih i hx
      exact ⟨y :: p, f, by rw [hl, List.cons_append], by simp [hp, ← h], hf⟩
    | none =>
      rw [hx] at h
      by_cases hyc : y == c
      · rw [if_pos hyc] at h
        injection h with h
        rw [beq_iff_eq] at hyc
        subst hyc
        exact ⟨[], xs, rfl, h, (rindexChar_eq_none _ xs).mp hx⟩
      · rw [if_neg hyc] at h
        cases h

/-- Claim C9: a single application of the output-path surgery inserts the
artist/album segment immediately after the last path separator, checking
"/" before the backslash; the prefix up to and including that separator
and the filename portion after it are unchanged; with no separator the
segment is prepended.  The first two conjuncts are the two concrete
examples; the remaining three cover an arbitrary template, artist and
album by cases on which separator occurs. -/
theorem claim9_path_deriver (out artist album : String) :
    insert_artist_album "music/%(title)s.%(ext)s" "Artist" "Album"
      = "music/Artist/Album/%(title)s.%(ext)s"
  ∧ insert_artist_album "%(title)s.%(ext)s" "Artist" "Album"
      = "Artist/Album/%(title)s.%(ext)s"
  ∧ (out.data.contains '/' = false → out.data.contains '\\' = false →
      insert_artist_album out artist album = artist ++ "/" ++ album ++ "/" ++ out)
  ∧ (out.data.contains '/' = true →
      ∃ p f, out.data = p ++ '/' :: f ∧ f.contains '/' = false ∧
        (insert_artist_album out artist album).data
          = p ++ '/' :: ((artist ++ "/" ++ album ++ "/").data ++ f))
  ∧ (out.data.contains '/' = false → out.data.contains '\\' = true →
      ∃ p f, out.data = p ++ '\\' :: f ∧ f.contains '\\' = false ∧
        (insert_artist_album out artist album).data
          = p ++ '\\' :: ((artist ++ "/" ++ album ++ "/").data ++ f)) := by
  refine ⟨rfl, rfl, ?_, ?_, ?_⟩
  · intro h1 h2
    simp only [insert_artist_album, insertIndex]
    rw [(rindexChar_eq_none _ _).mpr h1, (rindexChar_eq_none _ _).mpr h2]
    rfl
  · intro h
    cases hr : rindexChar '/' out.data with
    | none =>
      rw [rindexChar_eq_none] at hr
      rw [h] at hr
      cases hr
    | some j =>
      obtain ⟨p, f, hl, hp, hf⟩ := rindexChar_eq_some '/' out.data j hr
      subst hp
      refine ⟨p, f, hl, hf, ?_⟩
      simp only [insert_artist_album, insertIndex]
      rw [hr, hl]
      have ht : List.take (p.length + 1) (p ++ '/' :: f) = p ++ ['/'] := by
        rw [List.take_append 1]
        rfl
      have hd : List.drop (p.length + 1) (p ++ '/' :: f) = f := by
        rw [List.drop_append 1]
        rfl
      rw [ht, hd]
      simp [String.data_append, List.append_assoc]
  · intro h1 h2
    cases hr : rindexChar '\\' out.data with
    | none =>
      rw [rindexChar_eq_none] at hr
      rw [h2] at hr
      cases hr
    | some j =>
      obtain ⟨p, f, hl, hp, hf⟩ := rindexChar_eq_some '\\' out.data j hr
      subst hp
      refine ⟨p, f, hl, hf, ?_⟩
      simp only [insert_artist_album, insertIndex]
      rw [(rindexChar_eq_none _ _).mpr h1, hr, hl]
      have ht : List.take (p.length + 1) (p ++ '\\' :: f) = p ++ ['\\'] := by
        rw [List.take_append 1]
        rfl
      have hd : List.drop (p.length + 1) (p ++ '\\' :: f) = f := by
        rw [List.drop_append 1]
        rfl
      rw [ht, hd]
      simp [String.data_append, List.append_assoc]

/-- Witness for claim9_path_deriver: both separator-bearing branches and
the separator-free branch at concrete inputs. -/
theorem claim9_path_deriver_witness :
    insert_artist_album "noseparator" "Artist" "Album"
      = "Artist" ++ "/" ++ "Album" ++ "/" ++ "noseparator"
  ∧ (∃ p f, ("music/%(title)s.%(ext)s").data = p ++ '/' :: f
      ∧ f.contains '/' = false
      ∧ (insert_artist_album "music/%(title)s.%(ext)s" "Artist" "Album").data
          = p ++ '/' :: (("Artist" ++ "/" ++ "Album" ++ "/").data ++ f))
  ∧ (∃ p f, ("mu\\sic\\file").data = p ++ '\\' :: f
      ∧ f.contains '\\' = false
      ∧ (insert_artist_album "mu\\sic\\file" "Artist" "Album").data
          = p ++ '\\' :: (("Artist" ++ "/" ++ "Album" ++ "/").data ++ f)) :=
  ⟨(claim9_path_deriver "noseparator" "Artist" "Album").2.2.1 (by rfl) (by rfl),
   (claim9_path_deriver "music/%(title)s.%(ext)s" "Artist" "Album").2.2.2.1 (by rfl),
   (claim9_path_deriver "mu\\sic\\file" "Artist" "Album").2.2.2.2 (by rfl) (by rfl)⟩

/-! ## C10: the sorted output template compounds across iterations -/

theorem getIdx_zero_cons (x : PyVal) (xs : List PyVal) :
    getIdx (.pyList (x :: xs)) 0 = .ok x := by
  simp [getIdx]

/-- The character data of a derived template: the segment, with its two
separators, spliced in at the insertion index. -/
theorem insert_artist_album_data (out a b : String) :
    (insert_artist_album out a b).data
      = out.data.take (insertIndex out.data)
        ++ (a.data ++ '/' :: (b.data ++ '/' :: out.data.drop (insertIndex out.data))) := by
  simp [insert_artist_album, String.data_append, List.append_assoc]

/-- A derived template is never the empty string (it contains the two
inserted separators). -/
theorem insert_artist_album_ne_empty (out a b : String) :
    ¬ insert_artist_album out a b = "" := by
  intro h
  have hd := congrArg String.data h
  rw [insert_artist_album_data] at hd
  simp at hd

/-- One sorted Platform-A iteration that reaches the download: the track
adapts, the search succeeds, sorting derives the new template from the
state's *current* template and writes it back into the state, and the
download (here echoing the template it was handed) appends to outputs. -/
theorem processSpotifyTrack_sorted (st : PipeState) (o : String)
    (hout : st.outtmpl = some o) (t : Track) (x : PyVal) (r : List PyVal)
    (hx : t.artists = .pyList (x :: r)) :
    processSpotifyTrack true oneSongSearch echoDownload okLoadFile st (some t)
      = .ok ⟨some (insert_artist_album o (pyToString x) (pyToString (effectiveAlbum t))),
             st.outputs
               ++ [.pyStr (insert_artist_album o (pyToString x)
                     (pyToString (effectiveAlbum t)))]⟩ := by
  obtain ⟨ot, outs⟩ := st
  simp only at hout
  subst hout
  have hne : ((insert_artist_album o (pyToString x) (pyToString (effectiveAlbum t))
      == "") = false) :=
    beq_eq_false_iff_ne.mpr (insert_artist_album_ne_empty o _ _)
  simp [processSpotifyTrack, hx, getIdx_zero_cons, search_yt, oneSongSearch,
    songCountEqZero, search_query, dictGet, getIdx, pyEqb, echoDownload,
    okLoadFile, pyTruthy, hne, Bind.bind, Except.bind, pure, Except.pure]

/-- Claim C10: with sorting enabled, the template derived for a track is
written back into the shared yt-dlp options and read from there by the
next iteration.  In a two-track run in which both tracks reach the
path-derivation step, the second track's template is derived from the
already-modified template — the first track's artist/album segment sits
nested in front of the second track's own — and the download of track 2
(observed through the echoing download collaborator) uses that compounded
template, not one derived from the original template. -/
theorem claim10_template_compounds (o0 : String) (t1 t2 : Track)
    (x1 x2 : PyVal) (r1 r2 : List PyVal)
    (h1 : t1.artists = .pyList (x1 :: r1)) (h2 : t2.artists = .pyList (x2 :: r2)) :
    spotifyTrackLoop true oneSongSearch echoDownload okLoadFile
      [some t1, some t2] ⟨some o0, []⟩
      = .ok ⟨some (insert_artist_album
                (insert_artist_album o0 (pyToString x1) (pyToString (effectiveAlbum t1)))
                (pyToString x2) (pyToString (effectiveAlbum t2))),
             [.pyStr (insert_artist_album o0 (pyToString x1)
                 (pyToString (effectiveAlbum t1))),
              .pyStr (insert_artist_album
                 (insert_artist_album o0 (pyToString x1) (pyToString (effectiveAlbum t1)))
                 (pyToString x2) (pyToString (effectiveAlbum t2)))]⟩ := by
  unfold spotifyTrackLoop
  rw [List.foldlM_cons,
    processSpotifyTrack_sorted ⟨some o0, []⟩ o0 rfl t1 x1 r1 h1]
  simp only [Bind.bind, Except.bind]
  rw [List.foldlM_cons,
    processSpotifyTrack_sorted _ _ rfl t2 x2 r2 h2]
  simp only [Bind.bind, Except.bind, List.foldlM_nil]
  rfl

/-- Witness for claim10_template_compounds: two concrete tracks; the
second download's template nests the first track's segment in front of
its own. -/
def c10t1 : Track :=
  { artists := .pyList [.pyStr "A1"]
    album_artists := .pyList [.pyStr "A1"]
    title := .pyStr "T1"
    album_title := .pyStr "Alb1"
    release_date := .pyNone
    art_url := .pyStr "u"
    track_number := .pyNone
    total_tracks := .pyNone
    disc_number := .pyNone
    explicit := .pyBool false }

def c10t2 : Track :=
  { c10t1 with
    artists := .pyList [.pyStr "A2"]
    title := .pyStr "T2"
    album_title := .pyNone }

theorem claim10_template_compounds_witness :
    spotifyTrackLoop true oneSongSearch echoDownload okLoadFile
      [some c10t1, some c10t2] ⟨some "music/%(title)s.%(ext)s", []⟩
      = .ok ⟨some "music/A1/Alb1/A2/Singles/%(title)s.%(ext)s",
             [.pyStr "music/A1/Alb1/%(title)s.%(ext)s",
              .pyStr "music/A1/Alb1/A2/Singles/%(title)s.%(ext)s"]⟩ :=
  (claim10_template_compounds "music/%(title)s.%(ext)s" c10t1 c10t2
    (.pyStr "A1") (.pyStr "A2") [] [] rfl rfl).trans (by rfl)

end PlaylistMaster
